import Mathlib

/-!
Shallow embedding of the device-compatibility classifier of bose-dfu
(src/device_ids.rs): the identifier model, the static device registry and the
classifier identify_device, together with the textual rendering of the
identifier and mode types. Rust u16 values are embedded as Nat; the fields of
a USB identifier are always below 2 ^ 16 where that matters (only in the
hexadecimal rendering).
-/

namespace BoseDfu

/-- A USB vendor ID and product ID pair (struct UsbId, src/device_ids.rs). -/
structure UsbId where
  vid : Nat
  pid : Nat
  deriving DecidableEq

/-- Modes a device can be in (enum DeviceMode). -/
inductive DeviceMode where
  | Normal
  | Dfu
  | Unknown
  deriving DecidableEq

/-- Compatibility of a device, with detected mode if applicable (enum DeviceCompat). -/
inductive DeviceCompat where
  | Compatible (mode : DeviceMode)
  | Untested (mode : DeviceMode)
  | Incompatible
  deriving DecidableEq

/-- A compatible registry entry: the normal-mode and DFU-mode USB identifiers
of one device model (struct DeviceIds). -/
structure DeviceIds where
  normal_mode : UsbId
  dfu_mode : UsbId
  deriving DecidableEq

def BOSE_VID : Nat := 0x05a7

def BOSE_HID_USAGE_PAGE : Nat := 0xff00

/-- const fn bose_pid. -/
def bose_pid (pid : Nat) : UsbId :=
  { vid := BOSE_VID, pid := pid }

/-- const fn bose_dev. -/
def bose_dev (normal_pid dfu_pid : Nat) : DeviceIds :=
  { normal_mode := { vid := BOSE_VID, pid := normal_pid },
    dfu_mode := { vid := BOSE_VID, pid := dfu_pid } }

/-- KNOWN_DEVICES: the USB identifiers listed in the source as belonging to
compatible devices (pids 0x40fe, 0x1020, 0x1021, 0x1022, all with the Bose
vendor identifier). -/
def KNOWN_DEVICES : List UsbId :=
  [bose_pid 0x40fe, bose_pid 0x1020, bose_pid 0x1021, bose_pid 0x1022]

/-- INCOMPATIBLE_DEVICES: the Bose Noise Cancelling Headphones 700. -/
def INCOMPATIBLE_DEVICES : List UsbId :=
  [bose_pid 0x40fc]

/-- Modelled from the spec: identify_device iterates a constant
COMPATIBLE_DEVICES whose definition is not among the provided source files
(only KNOWN_DEVICES, a flat list of the registry identifiers, and the
constructor bose_dev are). Per the spec it is an ordered sequence of DeviceIds
entries, each pairing a distinct normal-mode identifier with a DFU-mode
identifier, and 0x1021 is registered as a DFU-mode identifier. We pair the
identifiers of KNOWN_DEVICES accordingly: normal 0x1020 with DFU 0x1021, and
normal 0x40fe with DFU 0x1022 (the exact pairing of the latter two is a
modelling choice; no claim depends on it beyond the entries being distinct
pairs drawn from KNOWN_DEVICES with 0x1021 in a DFU position). -/
def COMPATIBLE_DEVICES : List DeviceIds :=
  [bose_dev 0x1020 0x1021, bose_dev 0x40fe 0x1022]

/-- DeviceIds::match_id: if one of the entry's modes uses the given ID,
return it, otherwise None. The normal-mode identifier is compared first. -/
def DeviceIds.match_id (self : DeviceIds) (id : UsbId) : Option DeviceMode :=
  if id = self.normal_mode then some DeviceMode.Normal
  else if id = self.dfu_mode then some DeviceMode.Dfu
  else none

/-- The registry-lookup loop of identify_device: scan the entries in order and
return at the first one whose match_id yields a mode. -/
def lookupCompat : List DeviceIds → UsbId → Option DeviceMode
  | [], _ => none
  | c :: rest, id =>
    match c.match_id id with
    | some mode => some mode
    | none => lookupCompat rest id

/-- identify_device: find a device's compatibility and mode based on its USB
ID and HID usage page. -/
def identify_device (id : UsbId) (usage_page : Nat) : DeviceCompat :=
  if ¬ (usage_page = 0 ∨ usage_page = BOSE_HID_USAGE_PAGE) then
    DeviceCompat.Incompatible
  else
    match lookupCompat COMPATIBLE_DEVICES id with
    | some mode => DeviceCompat.Compatible mode
    | none =>
      if id ∈ INCOMPATIBLE_DEVICES then DeviceCompat.Incompatible
      else if id.vid = BOSE_VID then DeviceCompat.Untested DeviceMode.Unknown
      else DeviceCompat.Incompatible

/-- One lowercase hexadecimal digit character of a value below 16. -/
def hexDigitChar (n : Nat) : Char :=
  if n < 10 then Char.ofNat (0x30 + n) else Char.ofNat (0x57 + n)

/-- The Rust format specifier 04x applied to a 16-bit value: four lowercase
zero-padded hexadecimal digits, most significant first. -/
def hex4 (n : Nat) : String :=
  String.mk [hexDigitChar (n / 4096 % 16), hexDigitChar (n / 256 % 16),
             hexDigitChar (n / 16 % 16), hexDigitChar (n % 16)]

/-- impl Display for UsbId: vendor then product, four hex digits each, joined
by a colon. -/
def UsbId.display (id : UsbId) : String :=
  hex4 id.vid ++ ":" ++ hex4 id.pid

/-- impl Display for DeviceMode. -/
def DeviceMode.display : DeviceMode → String
  | DeviceMode.Normal => "normal"
  | DeviceMode.Dfu => "DFU"
  | DeviceMode.Unknown => "unknown"

/-- Whether a character is a lowercase hexadecimal digit. -/
def isLowerHexDigit (c : Char) : Bool :=
  (0x30 ≤ c.toNat && c.toNat ≤ 0x39) || (0x61 ≤ c.toNat && c.toNat ≤ 0x66)

/-- The value a hexadecimal digit character denotes. -/
def hexCharVal (c : Char) : Nat :=
  if 0x61 ≤ c.toNat then c.toNat - 0x57 else c.toNat - 0x30

/-- The value a big-endian string of hexadecimal digits denotes. -/
def hexStringVal (s : String) : Nat :=
  s.data.foldl (fun acc c => 16 * acc + hexCharVal c) 0

theorem hexCharVal_hexDigitChar (d : Nat) (hd : d < 16) :
    hexCharVal (hexDigitChar d) = d := by
  interval_cases d <;> decide

theorem isLowerHexDigit_hexDigitChar (d : Nat) (hd : d < 16) :
    isLowerHexDigit (hexDigitChar d) = true := by
  interval_cases d <;> decide

theorem hexStringVal_hex4 (n : Nat) (hn : n < 65536) :
    hexStringVal (hex4 n) = n := by
  have h16 : (0 : Nat) < 16 := by decide
  simp only [hexStringVal, hex4, List.foldl,
    hexCharVal_hexDigitChar _ (Nat.mod_lt _ h16)]
  omega

theorem lookupCompat_cons (c : DeviceIds) (rest : List DeviceIds) (id : UsbId) :
    lookupCompat (c :: rest) id =
      if id = c.normal_mode then some DeviceMode.Normal
      else if id = c.dfu_mode then some DeviceMode.Dfu
      else lookupCompat rest id := by
  by_cases h1 : id = c.normal_mode
  · simp only [lookupCompat, DeviceIds.match_id, if_pos h1]
  · by_cases h2 : id = c.dfu_mode
    · simp only [lookupCompat, DeviceIds.match_id, if_neg h1, if_pos h2]
    · simp only [lookupCompat, DeviceIds.match_id, if_neg h1, if_neg h2]

theorem match_id_mode (d : DeviceIds) (id : UsbId) (m : DeviceMode)
    (h : d.match_id id = some m) :
    m = DeviceMode.Normal ∨ m = DeviceMode.Dfu := by
  unfold DeviceIds.match_id at h
  split at h
  · exact Or.inl (Option.some.inj h).symm
  · split at h
    · exact Or.inr (Option.some.inj h).symm
    · exact absurd h (by simp)

theorem lookupCompat_mode (l : List DeviceIds) (id : UsbId) (m : DeviceMode)
    (h : lookupCompat l id = some m) :
    m = DeviceMode.Normal ∨ m = DeviceMode.Dfu := by
  induction l with
  | nil => exact absurd h (by simp [lookupCompat])
  | cons c rest ih =>
    unfold lookupCompat at h
    rcases hm : c.match_id id with _ | mode
    · rw [hm] at h
      exact ih h
    · rw [hm] at h
      exact (Option.some.inj h) ▸ match_id_mode c id mode hm

/-- C1: for every UsbId equal to the normal-mode (respectively DFU-mode)
identifier of an entry of the compatible registry, and every usage page that
is 0 or 0xff00, identify_device returns Compatible carrying DeviceMode.Normal
(respectively DeviceMode.Dfu). -/
theorem registry_hit_mode_matches (d : DeviceIds) (hd : d ∈ COMPATIBLE_DEVICES)
    (up : Nat) (hup : up = 0 ∨ up = BOSE_HID_USAGE_PAGE) :
    identify_device d.normal_mode up = DeviceCompat.Compatible DeviceMode.Normal ∧
    identify_device d.dfu_mode up = DeviceCompat.Compatible DeviceMode.Dfu := by
  simp only [COMPATIBLE_DEVICES, List.mem_cons, List.not_mem_nil, or_false] at hd
  rcases hd with rfl | rfl <;> rcases hup with rfl | rfl <;> exact ⟨by decide, by decide⟩

theorem registry_hit_mode_matches_witness :
    identify_device (bose_dev 0x1020 0x1021).normal_mode 0 =
      DeviceCompat.Compatible DeviceMode.Normal ∧
    identify_device (bose_dev 0x1020 0x1021).dfu_mode 0 =
      DeviceCompat.Compatible DeviceMode.Dfu :=
  registry_hit_mode_matches (bose_dev 0x1020 0x1021) (by decide) 0 (Or.inl rfl)

/-- C2: for every UsbId and every usage page that is neither 0 nor 0xff00,
identify_device returns Incompatible, even when the UsbId is in the compatible
registry: the usage-page gate is evaluated first. -/
theorem usage_page_gate_incompatible (id : UsbId) (up : Nat)
    (h0 : up ≠ 0) (hp : up ≠ BOSE_HID_USAGE_PAGE) :
    identify_device id up = DeviceCompat.Incompatible := by
  simp [identify_device, h0, hp]

theorem usage_page_gate_incompatible_witness :
    identify_device (bose_pid 0x1021) 1 = DeviceCompat.Incompatible :=
  usage_page_gate_incompatible (bose_pid 0x1021) 1 (by decide) (by decide)

/-- C3: the UsbId with vid 0x05a7 and pid 0x1021, at usage page 0xff00, is
classified Compatible in DFU mode: 0x1021 is registered as a DFU-mode
identifier. -/
theorem dfu_pid_1021_compatible :
    identify_device { vid := 0x05a7, pid := 0x1021 } 0xff00 =
      DeviceCompat.Compatible DeviceMode.Dfu := by
  decide

/-- C4: every UsbId of the known-incompatible set (it contains 0x05a7:0x40fc),
at usage page 0 or 0xff00, is classified Incompatible, regardless of its
vendor field equalling the Bose vendor identifier. -/
theorem incompatible_set_incompatible (id : UsbId)
    (hid : id ∈ INCOMPATIBLE_DEVICES) (up : Nat)
    (hup : up = 0 ∨ up = BOSE_HID_USAGE_PAGE) :
    identify_device id up = DeviceCompat.Incompatible := by
  simp only [INCOMPATIBLE_DEVICES, List.mem_cons, List.not_mem_nil, or_false] at hid
  subst hid
  rcases hup with rfl | rfl <;> decide

theorem incompatible_set_incompatible_witness :
    identify_device (bose_pid 0x40fc) 0 = DeviceCompat.Incompatible :=
  incompatible_set_incompatible (bose_pid 0x40fc) (by decide) 0 (Or.inl rfl)

/-- C5: a UsbId matching neither the compatible registry nor the incompatible
set, at usage page 0 or 0xff00, is classified Untested Unknown when its vendor
field is 0x05a7 and Incompatible otherwise. -/
theorem unmatched_vendor_fallback (id : UsbId) (up : Nat)
    (hup : up = 0 ∨ up = BOSE_HID_USAGE_PAGE)
    (hc : lookupCompat COMPATIBLE_DEVICES id = none)
    (hi : id ∉ INCOMPATIBLE_DEVICES) :
    identify_device id up =
      if id.vid = 0x05a7 then DeviceCompat.Untested DeviceMode.Unknown
      else DeviceCompat.Incompatible := by
  rcases hup with rfl | rfl <;> simp [identify_device, hc, hi, BOSE_VID, BOSE_HID_USAGE_PAGE]

theorem unmatched_vendor_fallback_witness :
    identify_device { vid := 0x05a7, pid := 0x9999 } 0 =
      if ({ vid := 0x05a7, pid := 0x9999 } : UsbId).vid = 0x05a7 then
        DeviceCompat.Untested DeviceMode.Unknown
      else DeviceCompat.Incompatible :=
  unmatched_vendor_fallback { vid := 0x05a7, pid := 0x9999 } 0 (Or.inl rfl)
    (by decide) (by decide)

/-- C6: the compatible-registry lookup scans the entries in order, checking
each entry's normal-mode identifier and then its DFU-mode identifier,
returning the corresponding mode at the first match (so the first entry wins
for duplicated identifiers), and it yields none exactly when no entry's
identifier equals the query. -/
theorem lookup_scan_characterization :
    (∀ id : UsbId, lookupCompat [] id = none) ∧
    (∀ (c : DeviceIds) (rest : List DeviceIds) (id : UsbId),
      lookupCompat (c :: rest) id =
        if id = c.normal_mode then some DeviceMode.Normal
        else if id = c.dfu_mode then some DeviceMode.Dfu
        else lookupCompat rest id) ∧
    (∀ (l : List DeviceIds) (id : UsbId),
      lookupCompat l id = none ↔
        ∀ c ∈ l, id ≠ c.normal_mode ∧ id ≠ c.dfu_mode) := by
  refine ⟨fun id => rfl, lookupCompat_cons, fun l id => ?_⟩
  induction l with
  | nil => simp [lookupCompat]
  | cons c rest ih =>
    rw [lookupCompat_cons]
    by_cases h1 : id = c.normal_mode
    · exact iff_of_false (by simp [if_pos h1])
        (fun hall => (hall c (List.mem_cons_self c rest)).1 h1)
    · by_cases h2 : id = c.dfu_mode
      · exact iff_of_false (by simp [if_neg h1, if_pos h2])
          (fun hall => (hall c (List.mem_cons_self c rest)).2 h2)
      · rw [if_neg h1, if_neg h2, ih, List.forall_mem_cons]
        exact (and_iff_right ⟨h1, h2⟩).symm

/-- C7: every entry of the compatible registry pairs a normal-mode identifier
with a DFU-mode identifier, and in every entry the two identifiers differ. -/
theorem registry_entry_ids_differ (d : DeviceIds) (hd : d ∈ COMPATIBLE_DEVICES) :
    d.normal_mode ≠ d.dfu_mode := by
  simp only [COMPATIBLE_DEVICES, List.mem_cons, List.not_mem_nil, or_false] at hd
  rcases hd with rfl | rfl <;> decide

theorem registry_entry_ids_differ_witness :
    (bose_dev 0x1020 0x1021).normal_mode ≠ (bose_dev 0x1020 0x1021).dfu_mode :=
  registry_entry_ids_differ (bose_dev 0x1020 0x1021) (by decide)

/-- C8: identify_device is total and deterministic: every input yields exactly
one of the three DeviceCompat cases, with no error path, and identical inputs
yield identical results. -/
theorem identify_total_deterministic (id : UsbId) (up : Nat) :
    ((∃ m, identify_device id up = DeviceCompat.Compatible m) ∨
     (∃ m, identify_device id up = DeviceCompat.Untested m) ∨
     identify_device id up = DeviceCompat.Incompatible) ∧
    identify_device id up = identify_device id up := by
  refine ⟨?_, rfl⟩
  cases h : identify_device id up with
  | Compatible m => exact Or.inl ⟨m, rfl⟩
  | Untested m => exact Or.inr (Or.inl ⟨m, rfl⟩)
  | Incompatible => exact Or.inr (Or.inr rfl)

/-- C9: a UsbId renders as its vendor then product field, each as four
lowercase zero-padded hexadecimal digits denoting the field's value, joined by
a colon; in particular vid 0x05a7, pid 0x1020 renders as 05a7:1020, and the
modes render as normal, DFU and unknown. -/
theorem rendering_correct (id : UsbId) (hv : id.vid < 65536) (hp : id.pid < 65536) :
    UsbId.display { vid := 0x05a7, pid := 0x1020 } = "05a7:1020" ∧
    DeviceMode.display DeviceMode.Dfu = "DFU" ∧
    DeviceMode.display DeviceMode.Normal = "normal" ∧
    DeviceMode.display DeviceMode.Unknown = "unknown" ∧
    UsbId.display id = hex4 id.vid ++ ":" ++ hex4 id.pid ∧
    (hex4 id.vid).length = 4 ∧ (hex4 id.pid).length = 4 ∧
    hexStringVal (hex4 id.vid) = id.vid ∧
    hexStringVal (hex4 id.pid) = id.pid ∧
    (∀ c ∈ (hex4 id.vid).data, isLowerHexDigit c = true) ∧
    (∀ c ∈ (hex4 id.pid).data, isLowerHexDigit c = true) := by
  have h16 : (0 : Nat) < 16 := by decide
  have hdigits : ∀ n : Nat, ∀ c ∈ (hex4 n).data, isLowerHexDigit c = true := by
    intro n c hc
    simp only [hex4, List.mem_cons, List.not_mem_nil, or_false] at hc
    rcases hc with rfl | rfl | rfl | rfl <;>
      exact isLowerHexDigit_hexDigitChar _ (Nat.mod_lt _ h16)
  exact ⟨by decide, rfl, rfl, rfl, rfl, rfl, rfl,
    hexStringVal_hex4 _ hv, hexStringVal_hex4 _ hp, hdigits _, hdigits _⟩

theorem rendering_correct_witness :
    UsbId.display { vid := 0x05a7, pid := 0x1020 } = "05a7:1020" :=
  (rendering_correct { vid := 0x05a7, pid := 0x1020 } (by decide) (by decide)).1

/-- C10: whenever identify_device returns Compatible m, the mode m is Normal
or Dfu, never Unknown. -/
theorem compatible_mode_known (id : UsbId) (up : Nat) (m : DeviceMode)
    (h : identify_device id up = DeviceCompat.Compatible m) :
    m = DeviceMode.Normal ∨ m = DeviceMode.Dfu := by
  unfold identify_device at h
  split at h
  · exact absurd h (by simp)
  · rcases hl : lookupCompat COMPATIBLE_DEVICES id with _ | mode
    · simp only [hl] at h
      split at h
      · exact absurd h (by simp)
      · split at h
        · exact absurd h (by simp)
        · exact absurd h (by simp)
    · simp only [hl] at h
      exact (DeviceCompat.Compatible.inj h) ▸
        lookupCompat_mode COMPATIBLE_DEVICES id mode hl

theorem compatible_mode_known_witness :
    DeviceMode.Dfu = DeviceMode.Normal ∨ DeviceMode.Dfu = DeviceMode.Dfu :=
  compatible_mode_known { vid := 0x05a7, pid := 0x1021 } 0xff00 DeviceMode.Dfu
    (by decide)

end BoseDfu
